import Mathlib

/-!
Verification development for the push-base-service relay pipeline.

The Go sources are shallowly embedded as executable Lean definitions:

* the Pebble key-value store (`pebble_service`) becomes a `Store` record of
  point-lookup functions, with each store operation a pure state transformer;
* the relay (`pushcenter.processChatMessage` and its helpers) becomes a pure
  function from a store and a chat message to the list of dispatcher calls it
  issues and the updated store;
* the dispatcher (`push_service.DefaultPushService.SendToUsers`) becomes the
  list of per-token attempts it resolves;
* the Expo service (`expo_service`) retry loops become fuel-indexed recursions
  with the network modelled as an oracle `Nat → Option PushResponse` giving the
  response of each successive attempt (`none` = transport error), and backoff
  delays computed in `ℚ`.

Go `int64` values become `Int`, Go byte-lengths and indices become `Nat` and
`String.length`/`String.take` (token and name literals are ASCII), and Go maps
become association lists or point-lookup functions.
-/

namespace PushBase

/-! ### Token maps (Go `map[string]string`) -/

/-- A platform → token map (`models.UserPushTokens.Tokens`), as an association
list. `tmGet` is map lookup, `tmSet` is `m[k] = v`, `tmDel` is `delete(m, k)`. -/
abbrev TokenMap := List (String × String)

def tmGet (m : TokenMap) (k : String) : Option String :=
  match m with
  | [] => none
  | (k', v) :: rest => if k' = k then some v else tmGet rest k

def tmDel (m : TokenMap) (k : String) : TokenMap :=
  m.filter (fun p => p.1 ≠ k)

def tmSet (m : TokenMap) (k v : String) : TokenMap :=
  (k, v) :: tmDel m k

/-! ### Store entities (`models` package) -/

/-- `models.DeviceInfo` (the `updated_at` timestamp is irrelevant to the
claims and omitted). Key in the `devices` keyspace: `deviceId`, which is the
push token itself. -/
structure DeviceInfo where
  deviceId : String
  platform : String
  metaId : String
  deriving Repr, DecidableEq

/-- `models.BlockedChat` (timestamps and reason omitted). -/
structure BlockedChat where
  userId : String
  chatId : String
  chatType : String
  deriving Repr, DecidableEq

/-- The four Pebble keyspaces (`user_tokens`, `devices`, `blocked_chats`,
`notified_pins`) as point-lookup functions. An absent `user_tokens` key reads
as the empty map and an absent `blocked_chats` key as the empty list, matching
`GetUserTokens` / `getUserBlockedChatsFromDB` which return empty records for
`pebble.ErrNotFound`. -/
structure Store where
  userTokens : String → TokenMap
  devices : String → Option DeviceInfo
  blockedChats : String → List BlockedChat
  notifiedPins : String → Bool

/-- The empty store (all keyspaces empty). -/
def Store.empty : Store :=
  { userTokens := fun _ => []
    devices := fun _ => none
    blockedChats := fun _ => []
    notifiedPins := fun _ => false }

/-! ### Store operations (`pebble_service`) -/

/-- `PebbleService.GetUserTokens`: absent keys yield an empty token map. -/
def Store.getUserTokens (s : Store) (metaId : String) : TokenMap :=
  s.userTokens metaId

/-- `PebbleService.SaveUserTokens`: overwrite the whole per-user map. -/
def Store.saveUserTokens (s : Store) (metaId : String) (m : TokenMap) : Store :=
  { s with userTokens := fun k => if k = metaId then m else s.userTokens k }

/-- `PebbleService.GetDeviceInfo`: point lookup in the `devices` keyspace
(`none` models the `pebble.ErrNotFound` error return). -/
def Store.getDeviceInfo (s : Store) (deviceId : String) : Option DeviceInfo :=
  s.devices deviceId

/-- `PebbleService.SaveDeviceInfo`: write keyed by the record's own
`DeviceID` field. -/
def Store.saveDeviceInfo (s : Store) (d : DeviceInfo) : Store :=
  { s with devices := fun k => if k = d.deviceId then some d else s.devices k }

/-- `PebbleService.SetUserToken`: the token is the device primary key.
Mirrors the Go control flow: (1) if a device binding for `token` exists and
belongs to a different `meta_id`, remove the prior owner's `(platform)` entry
when it equals `token`, then rewrite the binding (keeping the stored record's
own `DeviceID` as key, as `SaveDeviceInfo` does); (2) upsert
`userTokens[metaId][platform] = token`. Empty arguments are an error
(`InvalidArgument`), modelled as no state change. -/
def Store.setUserToken (s : Store) (metaId platform token : String) : Store :=
  if metaId = "" ∨ platform = "" ∨ token = "" then s
  else
    let s1 :=
      match s.getDeviceInfo token with
      | some existingDevice =>
          let s' :=
            if existingDevice.metaId ≠ metaId then
              let oldTokens := s.getUserTokens existingDevice.metaId
              match tmGet oldTokens platform with
              | some oldToken =>
                  if oldToken = token then
                    s.saveUserTokens existingDevice.metaId (tmDel oldTokens platform)
                  else s
              | none => s
            else s
          s'.saveDeviceInfo
            { deviceId := existingDevice.deviceId, platform := platform, metaId := metaId }
      | none =>
          s.saveDeviceInfo { deviceId := token, platform := platform, metaId := metaId }
    s1.saveUserTokens metaId (tmSet (s1.getUserTokens metaId) platform token)

/-- `PebbleService.IsBlockedChat` via the `pebble_service.IsUserBlockedChat`
wrapper: empty `metaID` or `chatID` is an error whose boolean component is
`false` (and the relay treats errors as "not blocked"); otherwise a linear
scan of the user's blocked list for a matching `chat_id`. -/
def Store.isUserBlockedChat (s : Store) (userId chatId : String) : Bool :=
  if userId = "" ∨ chatId = "" then false
  else (s.blockedChats userId).any (fun bc => bc.chatId = chatId)

/-- `PebbleService.AddBlockedChat`: no-op when `chat_id` is already present
for the user; empty ids are an error (no change). -/
def Store.addBlockedChat (s : Store) (userId chatId chatType : String) : Store :=
  if userId = "" ∨ chatId = "" then s
  else if (s.blockedChats userId).any (fun bc => bc.chatId = chatId) then s
  else
    { s with blockedChats := fun k =>
        if k = userId then
          s.blockedChats userId ++ [{ userId := userId, chatId := chatId, chatType := chatType }]
        else s.blockedChats k }

/-- `PebbleService.AddNotifiedPin`: records the PIN key; empty id is an
error (no change). -/
def Store.addNotifiedPin (s : Store) (pinId : String) : Store :=
  if pinId = "" then s
  else { s with notifiedPins := fun k => if k = pinId then true else s.notifiedPins k }

/-- `PebbleService.IsNotifiedPin`: key-existence check (empty id is an error,
whose boolean component is `false`; the relay only calls this with a
non-empty id). -/
def Store.isNotifiedPin (s : Store) (pinId : String) : Bool :=
  if pinId = "" then false else s.notifiedPins pinId

/-! ### Upstream chat message and envelope parsing (`pushcenter`) -/

/-- A numeric-or-not JSON value found under `message.chatType`.
`parseMessageInfo` accepts every Go numeric representation
(`int64/int/float64/int32/int16/int8`, all converted to `int64`, here `Int`)
and logs-and-defaults anything else to 0. -/
inductive ChatTypeVal
  | num (v : Int)
  | nonNumeric
  deriving Repr, DecidableEq

/-- The dynamic `messageMap` traversed by `parseMessageInfo`. Each field is
`some s` when the corresponding JSON key is present with a string value
(`chatType`: present with the given value); a key that is absent or of the
wrong dynamic type reads as `none`, matching the failed Go type assertions. -/
structure MessageMap where
  pinId : Option String := none
  userInfoName : Option String := none
  metaId : Option String := none
  fromId : Option String := none
  toId : Option String := none
  groupId : Option String := none
  channelId : Option String := none
  chatType : Option ChatTypeVal := none
  deriving Repr, DecidableEq

/-- The dynamic value of `ExtraServiceMessage.Message`: Go `nil`, a non-map
value (string etc., "method 3" fallback), or a JSON object. -/
inductive MessageVal
  | nilVal
  | nonMap
  | mapVal (m : MessageMap)
  deriving Repr, DecidableEq

/-- `socket_client_service.ExtraServiceMessage` (the fields the relay reads). -/
structure ExtraServiceMessage where
  message : MessageVal
  repostMetaIds : List String := []
  mentionMetaIds : List String := []
  deriving Repr, DecidableEq

/-- `socket_client_service.ChatNotificationMessage`: the typed envelope
(`Type` is `"private_chat"`, `"group_chat"`, …; `Data` may be `nil`). -/
structure ChatNotificationMessage where
  type : String
  data : Option ExtraServiceMessage
  deriving Repr, DecidableEq

/-- `pushcenter.ParsedMessageInfo`. -/
structure ParsedMessageInfo where
  pinId : String
  groupId : String
  metaId : String
  chatType : String
  userName : String
  chatInfoType : Int
  deriving Repr, DecidableEq

/-- A failed string type assertion leaves the target at its zero value. -/
def optStr (o : Option String) : String := o.getD ""

/-- `PushCenter.parseMessageInfo`: extracts `pinId`, `userInfo.name`, and the
kind-specific fields. `metaId` (private) falls back `metaId → from → to`;
`groupId` (group) falls back `groupId → channelId`; `chatInfoType` is decoded
from `message.chatType` only in the `group_chat` branch. A `nil` message is
an error; a non-map message yields the basic info (method 3). -/
def parseMessageInfo (chatMsg : ChatNotificationMessage) :
    Except String ParsedMessageInfo :=
  match chatMsg.data with
  | none => .error "empty chat message"
  | some d =>
    match d.message with
    | .nilVal => .error "empty chat message"
    | .nonMap =>
        .ok { pinId := "", groupId := "", metaId := "", chatType := chatMsg.type,
              userName := "", chatInfoType := 0 }
    | .mapVal m =>
        let base : ParsedMessageInfo :=
          { pinId := optStr m.pinId, groupId := "", metaId := "",
            chatType := chatMsg.type, userName := optStr m.userInfoName,
            chatInfoType := 0 }
        if chatMsg.type = "private_chat" then
          let mid := optStr m.metaId
          let mid := if mid = "" then optStr m.fromId else mid
          let mid := if mid = "" then optStr m.toId else mid
          .ok { base with metaId := mid }
        else if chatMsg.type = "group_chat" then
          let gid := optStr m.groupId
          let gid := if gid = "" then optStr m.channelId else gid
          let cit : Int :=
            match m.chatType with
            | some (.num v) => v
            | some .nonNumeric => 0
            | none => 0
          .ok { base with groupId := gid, chatInfoType := cit }
        else .ok base

/-- The PIN id of an envelope, when it parses. -/
def parsedPinOf (chatMsg : ChatNotificationMessage) : Option String :=
  (parseMessageInfo chatMsg).toOption.map (fun p => p.pinId)

/-- `PushCenter.truncateUserName`: names longer than 20 are cut to 17
characters plus a literal `...`. -/
def truncateUserName (userName : String) : String :=
  if userName = "" then userName
  else if userName.length ≤ 20 then userName
  else userName.take 17 ++ "..."

/-- `PushCenter.generateNotificationTitle`. -/
def generateNotificationTitle (msgType : String) (isMention : Bool) : String :=
  if isMention then
    if msgType = "private_chat" then "New Mention"
    else if msgType = "group_chat" then "You were mentioned"
    else "New Mention"
  else
    if msgType = "private_chat" then "New Message"
    else if msgType = "group_chat" then "New Message in Group"
    else "New Message"

/-- `PushCenter.GenerateNotificationBody` (the `groupId` argument is unused by
the Go function's current body except as documentation; kept for fidelity). -/
def GenerateNotificationBody (msgType userName : String) (chatInfoType : Int)
    (isMention : Bool) (_groupId : String) : String :=
  if isMention then
    let truncatedName :=
      if truncateUserName userName = "" then "Someone" else truncateUserName userName
    if chatInfoType = 1 ∨ chatInfoType = 23 then
      truncatedName ++ " mentioned you with a Candy Bag"
    else truncatedName ++ " mentioned you"
  else
    if msgType = "group_chat" then
      if userName ≠ "" then
        if chatInfoType = 1 ∨ chatInfoType = 23 then
          truncateUserName userName ++ " sent a Candy Bag"
        else truncateUserName userName ++ " sent a message"
      else "New message in group"
    else
      -- the `private_chat` case and the default case are identical in Go
      if userName ≠ "" then
        if chatInfoType = 1 ∨ chatInfoType = 23 then
          truncateUserName userName ++ " sent you a Candy Bag"
        else truncateUserName userName ++ " sent you a message"
      else "You have a new message"

/-- The chat id against which the mute filter checks a recipient
(`filterBlockedUsers`): the private peer's `metaId` for `private_chat`, the
`groupId` for `group_chat`, empty otherwise. -/
def chatIdOf (p : ParsedMessageInfo) : String :=
  if p.chatType = "private_chat" then p.metaId
  else if p.chatType = "group_chat" then p.groupId
  else ""

/-- One iteration of the `filterBlockedUsers` loop: `false` means the
recipient is dropped. A `private_chat` recipient equal to the chat id (the
sender/peer) is dropped first; an empty chat id skips the mute check; store
errors default to "not blocked" (see `Store.isUserBlockedChat`). -/
def includeRecipient (s : Store) (p : ParsedMessageInfo) (metaId : String) : Bool :=
  let chatID := chatIdOf p
  if p.chatType == "private_chat" && metaId == chatID then false
  else if chatID == "" then true
  else !(s.isUserBlockedChat metaId chatID)

/-- `PushCenter.filterBlockedUsers`. -/
def filterBlockedUsers (s : Store) (metaIds : List String)
    (p : ParsedMessageInfo) : List String :=
  metaIds.filter (includeRecipient s p)

/-- One dispatcher invocation made by `processChatMessage`
(`pushManager.SendToUsersWithData`): the recipient set and the composed
title/body (the custom `data` payload carries the raw message and a wall-clock
timestamp and is not modelled). -/
structure DispatchCall where
  recipients : List String
  title : String
  body : String
  isMention : Bool
  deriving Repr, DecidableEq

/-- The `mention_meta_ids` of an envelope (absent data ⇒ empty). -/
def mentionIdsOf (chatMsg : ChatNotificationMessage) : List String :=
  (chatMsg.data.map (fun d => d.mentionMetaIds)).getD []

/-- `PushCenter.processChatMessage` as a pure state machine: parse; drop on
parse error; drop when the PIN is already notified; drop when
`repost_meta_ids` is empty; mute-filter; partition into mentioned users
(taken from `mention_meta_ids` as-is) and normal users (filtered minus
mentioned); emit up to two dispatcher calls; finally record the PIN
(`AddNotifiedPin`, issued asynchronously in Go, sequenced here). Returns the
dispatcher calls and the store after the envelope is fully processed. -/
def processChatMessage (s : Store) (chatMsg : ChatNotificationMessage) :
    List DispatchCall × Store :=
  match parseMessageInfo chatMsg with
  | .error _ => ([], s)
  | .ok parsedInfo =>
    if parsedInfo.pinId ≠ "" ∧ s.isNotifiedPin parsedInfo.pinId then ([], s)
    else
      let metaIds := (chatMsg.data.map (fun d => d.repostMetaIds)).getD []
      if metaIds = [] then ([], s)
      else
        let filteredMetaIds := filterBlockedUsers s metaIds parsedInfo
        let mentionMetaIds := mentionIdsOf chatMsg
        let mentionedUsers := mentionMetaIds
        let normalUsers := filteredMetaIds.filter (fun mid => !(mentionMetaIds.contains mid))
        let mentionCalls : List DispatchCall :=
          if mentionedUsers ≠ [] then
            [{ recipients := mentionedUsers
               title := generateNotificationTitle chatMsg.type true
               body := GenerateNotificationBody chatMsg.type parsedInfo.userName
                 parsedInfo.chatInfoType true parsedInfo.groupId
               isMention := true }]
          else []
        let normalCalls : List DispatchCall :=
          if normalUsers ≠ [] then
            [{ recipients := normalUsers
               title := generateNotificationTitle chatMsg.type false
               body := GenerateNotificationBody chatMsg.type parsedInfo.userName
                 parsedInfo.chatInfoType false ""
               isMention := false }]
          else []
        let s' := if parsedInfo.pinId ≠ "" then s.addNotifiedPin parsedInfo.pinId else s
        (mentionCalls ++ normalCalls, s')

/-! ### Dispatcher (`push_service.DefaultPushService`) -/

/-- One per-attempt entry of a `BatchPushResult` (`push_service.PushResult`):
the dispatcher produces exactly one attempt per `(meta_id, platform, token)`
triple whose platform has a registered provider. -/
structure PushResult where
  metaId : String
  platform : String
  token : String
  deriving Repr, DecidableEq

/-- The dispatcher environment: the set of registered provider names
(`DefaultPushService.providers`). -/
structure PushEnv where
  providers : List String
  deriving Repr, DecidableEq

/-- The attempts resolved by `DefaultPushService.SendToUsers`: for every
requested `meta_id`, every `(platform, token)` entry of its token map whose
platform has a registered provider (unregistered platforms are dropped). The
Go goroutine fan-out collects these in nondeterministic order; list order
here is immaterial to the claims, which are membership statements. -/
def sendToUsersResults (env : PushEnv) (s : Store) (metaIds : List String) :
    List PushResult :=
  metaIds.flatMap (fun mid =>
    ((s.getUserTokens mid).filter (fun pt => env.providers.contains pt.1)).map
      (fun pt => { metaId := mid, platform := pt.1, token := pt.2 }))

/-! ### Expo token validation (`expo_service.ValidateToken`) -/

/-- `expo_service.ValidateToken`: rejects strings shorter than 10, then
requires length strictly greater than 20 and one of the two literal Expo
token markers at the start (`token[:18]` / `token[:14]` in Go, guarded by
the length check). -/
def ValidateToken (token : String) : Bool :=
  if token.length < 10 then false
  else
    decide (token.length > 20) &&
      (token.take 18 == "ExponentPushToken[" || token.take 14 == "ExpoPushToken[")

/-! ### Expo service: batching, retry and backoff (`expo_service`) -/

/-- `expo_service.MaxMessagesPerRequest`. -/
def MaxMessagesPerRequest : Nat := 100

/-- The batches formed by the `SendBulkNotifications` loop
(`for i := 0; i < len(tokens); i += MaxMessagesPerRequest`): the i-th batch
is `tokens[i*100 : min((i+1)*100, len)]`, and there are ⌈len/100⌉ batches. -/
def sendBulkBatches (tokens : List String) : List (List String) :=
  (List.range ((tokens.length + MaxMessagesPerRequest - 1) / MaxMessagesPerRequest)).map
    (fun i => (tokens.drop (i * MaxMessagesPerRequest)).take MaxMessagesPerRequest)

/-- The number of Expo HTTP send requests a single Dispatcher call issues on
the no-retry path. `DefaultPushService.SendToUsers` calls
`sendSingleNotification` once per resolved attempt, which calls
`ExpoProvider.SendNotification` → `Manager.SendCustomMessage` →
`Service.SendSingleNotification` → one `Client.SendPushNotification` — i.e.
one single-message network request per Expo-routed attempt. -/
def dispatcherExpoRequestCount (env : PushEnv) (s : Store) (metaIds : List String) : Nat :=
  ((sendToUsersResults env s metaIds).filter (fun r => r.platform == "expo")).length

/-- An Expo push ticket (`expo_service.PushTicket`). -/
structure ExpoTicket where
  status : String
  id : String
  message : String
  details : String
  deriving Repr, DecidableEq

/-- An Expo send response (`expo_service.PushResponse`): per-message tickets
plus request-level API errors. -/
structure PushResponse where
  data : List ExpoTicket
  errors : List String
  deriving Repr, DecidableEq

/-- `expo_service.SendNotificationResult`. -/
structure SendNotificationResult where
  success : Bool
  receiptId : String
  error : Option String
  token : String
  retry : Nat
  deriving Repr, DecidableEq

/-- `Service.shouldRetry`: retry on every transport error except when the
retry budget is exhausted (`retryCount >= maxRetries`). -/
def shouldRetry (maxRetries retryCount : Nat) : Bool :=
  retryCount < maxRetries

/-- `Service.waitBeforeRetry`, as the length of the sleep it performs, in
units of `baseDelay`-compatible time over `ℚ`: zero when `retryCount == 0`
(the function returns immediately), otherwise
`baseDelay * 2^(retryCount-1)` plus a jitter of exactly one tenth of that
delay (`jitter := delay * 0.1; delay += jitter`). Go computes this in
`float64` and truncates to a `time.Duration`; the sub-nanosecond rounding of
the `0.1` literal is ignored here, which does not affect any claim. -/
def waitDelay (baseDelay : ℚ) (retryCount : Nat) : ℚ :=
  if retryCount = 0 then 0
  else baseDelay * 2 ^ (retryCount - 1) * (11 / 10)

/-- The delay that precedes the n-th retry (n ≥ 1): the loop calls
`waitBeforeRetry(retry)` after the attempt with counter `retry` fails, and
the next iteration performs retry number `retry + 1`, so retry `n` is
preceded by `waitDelay baseDelay (n-1)`. -/
def delayBeforeRetry (baseDelay : ℚ) (n : Nat) : ℚ :=
  waitDelay baseDelay (n - 1)

/-- Per-ticket result processing in `Service.sendBatch`: tickets are applied
by index, extra results keep their prior state, extra tickets are ignored
(`if i >= len(results) break`). -/
def applyTickets (results : List SendNotificationResult)
    (tickets : List ExpoTicket) (retry : Nat) : List SendNotificationResult :=
  (List.zipWith
    (fun r t =>
      if t.status = "ok" then
        { r with success := true, receiptId := t.id, retry := retry }
      else
        { r with error := some ("push failed: " ++ t.message ++ " - " ++ t.details),
                 retry := retry })
    results tickets) ++ results.drop tickets.length

/-- The retry loop of `Service.sendBatch`. `transport n` is the response of
the n-th network attempt (`none` = transport error from
`client.SendPushNotifications`). `retry` is the loop counter, `fuel` the
remaining iterations (`maxRetries + 1 - retry`). Returns the per-token
results and the number of network attempts performed. -/
def sendBatchGo (transport : Nat → Option PushResponse) (maxRetries : Nat)
    (results : List SendNotificationResult) (retry fuel : Nat) :
    List SendNotificationResult × Nat :=
  match fuel with
  | 0 =>
      -- loop exhausted without returning: "max retries exceeded"
      (results.map (fun r =>
        if !r.success && r.error == none then
          { r with error := some "max retries exceeded", retry := maxRetries }
        else r), 0)
  | fuel + 1 =>
      match transport retry with
      | none =>
          if shouldRetry maxRetries retry then
            -- waitBeforeRetry(retry); continue
            let rest := sendBatchGo transport maxRetries results (retry + 1) fuel
            (rest.1, rest.2 + 1)
          else
            (results.map (fun r =>
              if !r.success then { r with error := some "transport", retry := retry }
              else r), 1)
      | some response =>
          if response.errors ≠ [] then
            (results.map (fun r =>
              if !r.success then { r with error := some "api", retry := retry }
              else r), 1)
          else (applyTickets results response.data retry, 1)

/-- `Service.sendBatch`: initial results carry the tokens, then the retry
loop runs with counter 0 and `maxRetries + 1` available iterations. -/
def sendBatch (transport : Nat → Option PushResponse) (maxRetries : Nat)
    (tokens : List String) : List SendNotificationResult × Nat :=
  sendBatchGo transport maxRetries
    (tokens.map (fun t =>
      { success := false, receiptId := "", error := none, token := t, retry := 0 }))
    0 (maxRetries + 1)

/-- The retry loop of `Service.SendSingleNotification`, additionally
accumulating the total backoff wait (in the units of `waitDelay`). Returns
(result, network attempts, total wait). -/
def sendSingleGo (transport : Nat → Option PushResponse) (maxRetries : Nat)
    (baseDelay : ℚ) (result : SendNotificationResult) (retry fuel : Nat) :
    SendNotificationResult × Nat × ℚ :=
  match fuel with
  | 0 => ({ result with error := some "max retries exceeded" }, 0, 0)
  | fuel + 1 =>
      let result := { result with retry := retry }
      match transport retry with
      | none =>
          if shouldRetry maxRetries retry then
            let rest := sendSingleGo transport maxRetries baseDelay result (retry + 1) fuel
            (rest.1, rest.2.1 + 1, waitDelay baseDelay retry + rest.2.2)
          else ({ result with error := some "transport" }, 1, 0)
      | some response =>
          if response.errors ≠ [] then
            ({ result with error := some "api" }, 1, 0)
          else
            match response.data with
            | [] => ({ result with error := some "no response data" }, 1, 0)
            | ticket :: _ =>
                if ticket.status = "ok" then
                  ({ result with success := true, receiptId := ticket.id }, 1, 0)
                else
                  ({ result with
                      error := some ("push failed: " ++ ticket.message ++ " - " ++ ticket.details) },
                   1, 0)

/-- `Service.SendSingleNotification` for one token. -/
def sendSingle (transport : Nat → Option PushResponse) (maxRetries : Nat)
    (baseDelay : ℚ) (token : String) : SendNotificationResult × Nat × ℚ :=
  sendSingleGo transport maxRetries baseDelay
    { success := false, receiptId := "", error := none, token := token, retry := 0 }
    0 (maxRetries + 1)

/-- A provider transport that fails with a transport error on the first two
attempts and answers an `ok` ticket from the third attempt on (scenario S6). -/
def failTwiceTransport : Nat → Option PushResponse :=
  fun n =>
    if n < 2 then none
    else some { data := [{ status := "ok", id := "receipt-1", message := "", details := "" }],
                errors := [] }

/-! ### Pagination (`PebbleService.GetUserTokensList`) -/

/-- `pebble_service.PaginatedUserTokens` (generic in the item type). -/
structure PaginatedUserTokens (α : Type) where
  users : List α
  total : Nat
  page : Nat
  pageSize : Nat
  totalPages : Nat
  hasNext : Bool
  deriving Repr, DecidableEq

/-- `PebbleService.GetUserTokensList` on a fixed full scan `allUsers` of the
`user_tokens` keyspace (Pebble iterates keys in a stable order; the scan is
the parameter). Mirrors the Go clamping (`page < 1 → 1`,
`pageSize < 1 → 10`, `pageSize > 100 → 100`), the ceiling `totalPages`, the
empty out-of-range result with `hasNext = false`, and the
`allUsers[startIndex:endIndex]` slice with `endIndex` clamped to `total`. -/
def getUserTokensList {α : Type} (allUsers : List α) (page pageSize : Nat) :
    PaginatedUserTokens α :=
  let page := if page < 1 then 1 else page
  let pageSize := if pageSize < 1 then 10 else if pageSize > 100 then 100 else pageSize
  let total := allUsers.length
  let totalPages := (total + pageSize - 1) / pageSize
  let startIndex := (page - 1) * pageSize
  let endIndex := startIndex + pageSize
  if startIndex ≥ total then
    { users := [], total := total, page := page, pageSize := pageSize,
      totalPages := totalPages, hasNext := false }
  else
    let endIndex := if endIndex > total then total else endIndex
    { users := (allUsers.drop startIndex).take (endIndex - startIndex),
      total := total, page := page, pageSize := pageSize,
      totalPages := totalPages, hasNext := page < totalPages }

/-! ### Concrete inputs used by counterexamples and witnesses -/

/-- The dispatcher environment with the Expo provider registered. -/
def expoEnv : PushEnv := { providers := ["expo"] }

/-- A private-chat envelope (scenario S3): sender `u1`, recipients
`u1, u2`, no mentions. -/
def privatePlainMsg : ChatNotificationMessage :=
  { type := "private_chat"
    data := some
      { message := .mapVal
          { pinId := some "P1", userInfoName := some "Alice", metaId := some "u1" }
        repostMetaIds := ["u1", "u2"]
        mentionMetaIds := [] } }

/-- A private-chat envelope that mentions its own sender `u1`. -/
def selfMentionMsg : ChatNotificationMessage :=
  { type := "private_chat"
    data := some
      { message := .mapVal
          { pinId := some "P1", userInfoName := some "Alice", metaId := some "u1" }
        repostMetaIds := ["u1", "u2"]
        mentionMetaIds := ["u1"] } }

/-- A private-chat envelope whose raw message carries the Candy-Bag
`chatType = 1`. -/
def privateCandyMsg : ChatNotificationMessage :=
  { type := "private_chat"
    data := some
      { message := .mapVal
          { pinId := some "P3", userInfoName := some "Alice", metaId := some "u1",
            chatType := some (.num 1) }
        repostMetaIds := ["u1", "u2"]
        mentionMetaIds := [] } }

/-- A group-chat envelope (scenario S4): group `g1`, sender `Bob`,
recipients `u3, u4`, mention of `u3`, Candy-Bag chat type. -/
def groupMentionMsg : ChatNotificationMessage :=
  { type := "group_chat"
    data := some
      { message := .mapVal
          { pinId := some "P2", userInfoName := some "Bob", groupId := some "g1",
            chatType := some (.num 1) }
        repostMetaIds := ["u3", "u4"]
        mentionMetaIds := ["u3"] } }

/-- A store where `u3` has muted chat `g1` and both `u3` and `u4` own an
Expo token. -/
def muteStore : Store :=
  (((Store.empty.addBlockedChat "u3" "g1" "group").setUserToken
      "u3" "expo" "ExponentPushToken[aaaaaaaaaaaaaaaaaaaaaa]").setUserToken
      "u4" "expo" "ExponentPushToken[bbbbbbbbbbbbbbbbbbbbbb]")

/-- A store with the PIN `P1` already recorded as notified. -/
def pinStore : Store := Store.empty.addNotifiedPin "P1"

/-- A store where `u1` and `u2` each own one Expo token. -/
def twoUserStore : Store :=
  ((Store.empty.setUserToken "u1" "expo" "ExponentPushToken[aaaaaaaaaaaaaaaaaaaaaa]").setUserToken
      "u2" "expo" "ExponentPushToken[bbbbbbbbbbbbbbbbbbbbbb]")

/-- The plain dispatcher call produced by `privatePlainMsg` (and by
`privateCandyMsg`). -/
def plainCallU2 : DispatchCall :=
  { recipients := ["u2"], title := "New Message",
    body := "Alice sent you a message", isMention := false }

/-- The mention dispatcher call produced by `groupMentionMsg`. -/
def mentionCallU3 : DispatchCall :=
  { recipients := ["u3"], title := "You were mentioned",
    body := "Bob mentioned you with a Candy Bag", isMention := true }

/-- `groupMentionMsg` as the relay parses it. -/
def groupMentionParsed : ParsedMessageInfo :=
  { pinId := "P2", groupId := "g1", metaId := "", chatType := "group_chat",
    userName := "Bob", chatInfoType := 1 }

/-- `privatePlainMsg` as the relay parses it. -/
def privatePlainParsed : ParsedMessageInfo :=
  { pinId := "P1", groupId := "", metaId := "u1", chatType := "private_chat",
    userName := "Alice", chatInfoType := 0 }

/-- `privateCandyMsg` as the relay parses it: `chat_info_type` stays 0. -/
def privateCandyParsed : ParsedMessageInfo :=
  { pinId := "P3", groupId := "", metaId := "u1", chatType := "private_chat",
    userName := "Alice", chatInfoType := 0 }

/-! ## Helper lemmas -/

theorem tmGet_tmSet_self (m : TokenMap) (k v : String) :
    tmGet (tmSet m k v) k = some v := by
  simp [tmSet, tmGet]

theorem tmGet_tmDel_self (m : TokenMap) (k : String) :
    tmGet (tmDel m k) k = none := by
  induction m with
  | nil => rfl
  | cons p rest ih =>
      by_cases h : p.1 = k
      · simpa [tmDel, h] using ih
      · simpa [tmDel, tmGet, h] using ih

theorem userTokens_saveUserTokens_self (s : Store) (u : String) (m : TokenMap) :
    (s.saveUserTokens u m).userTokens u = m := by
  simp [Store.saveUserTokens]

theorem userTokens_saveUserTokens_ne (s : Store) (u u' : String) (m : TokenMap)
    (h : u' ≠ u) : (s.saveUserTokens u m).userTokens u' = s.userTokens u' := by
  simp [Store.saveUserTokens, h]

theorem devices_saveUserTokens (s : Store) (u : String) (m : TokenMap) (k : String) :
    (s.saveUserTokens u m).devices k = s.devices k := rfl

theorem devices_saveDeviceInfo_self (s : Store) (d : DeviceInfo) :
    (s.saveDeviceInfo d).devices d.deviceId = some d := by
  simp [Store.saveDeviceInfo]

theorem userTokens_saveDeviceInfo (s : Store) (d : DeviceInfo) (u : String) :
    (s.saveDeviceInfo d).userTokens u = s.userTokens u := rfl

/-- Every attempt of a dispatcher call targets one of the requested users. -/
theorem mem_sendToUsersResults (env : PushEnv) (s : Store) (metaIds : List String)
    (r : PushResult) (hr : r ∈ sendToUsersResults env s metaIds) :
    r.metaId ∈ metaIds := by
  simp only [sendToUsersResults, List.mem_flatMap, List.mem_map] at hr
  obtain ⟨mid, hmid, pt, _, rfl⟩ := hr
  exact hmid

/-- Concatenating `k` consecutive `n`-sized slices of a list recovers its
first `k * n` elements. -/
theorem flatMap_range_slices {α : Type} (l : List α) (n : Nat) (k : Nat) :
    (List.range k).flatMap (fun i => (l.drop (i * n)).take n) = l.take (k * n) := by
  induction k with
  | zero => simp
  | succ k ih =>
      rw [List.range_succ, List.flatMap_append, ih, List.flatMap_cons,
        List.flatMap_nil, List.append_nil, Nat.succ_mul, List.take_add]

/-- `len ≤ ⌈len / n⌉ * n` for positive `n`, with the ceiling written as the
Go expression `(len + n - 1) / n`. -/
theorem le_ceil_mul (len n : Nat) (hn : 1 ≤ n) :
    len ≤ (len + n - 1) / n * n := by
  have h1 := Nat.div_add_mod (len + n - 1) n
  have h2 : (len + n - 1) % n < n := Nat.mod_lt _ (by omega)
  rw [Nat.mul_comm]
  generalize hQ : n * ((len + n - 1) / n) = Q at h1 ⊢
  omega

/-- `addNotifiedPin` never forgets an existing PIN. -/
theorem isNotifiedPin_addNotifiedPin (s : Store) (pin q : String)
    (h : s.isNotifiedPin pin = true) :
    (s.addNotifiedPin q).isNotifiedPin pin = true := by
  unfold Store.addNotifiedPin Store.isNotifiedPin at *
  by_cases hq : q = ""
  · simpa [hq] using h
  · by_cases hp : pin = ""
    · simp [hp] at h
    · by_cases hpq : pin = q <;> simp_all

/-! ## C5 — Expo token validation -/

/-- C5 counterexample: `"ExponentPushToken[x]"` is a well-marked token of
exactly 20 characters, yet `ValidateToken` rejects it — the code requires
strictly more than 20 characters, not at least 20. -/
theorem validate_token_counterexample :
    ("ExponentPushToken[x]".length = 20 ∧
      "ExponentPushToken[x]".take 18 = "ExponentPushToken[") ∧
    ValidateToken "ExponentPushToken[x]" = false := by
  refine ⟨⟨?_, ?_⟩, ?_⟩ <;> decide

/-- C5 (amended): `ValidateToken` accepts exactly the strings of length
strictly greater than 20 that start with `ExponentPushToken[` or
`ExpoPushToken[`; the check is purely syntactic. -/
theorem validate_token_syntax (t : String) :
    ValidateToken t =
      (decide (t.length > 20) &&
        (t.take 18 == "ExponentPushToken[" || t.take 14 == "ExpoPushToken[")) := by
  unfold ValidateToken
  split
  · next h =>
      have h20 : ¬ t.length > 20 := by omega
      simp [h20]
  · rfl

/-! ## C7 — retry bound -/

/-- With every network attempt failing, the `sendBatch` retry loop performs
exactly the remaining `fuel` attempts and fails every message with the
transport error at retry counter `maxRetries`. -/
theorem sendBatchGo_all_transport_errors (maxRetries : Nat)
    (results : List SendNotificationResult) (retry fuel : Nat)
    (hfuel : retry + fuel = maxRetries + 1) (hf : 1 ≤ fuel) :
    sendBatchGo (fun _ => none) maxRetries results retry fuel =
      (results.map (fun r =>
        if !r.success then { r with error := some "transport", retry := maxRetries }
        else r), fuel) := by
  induction fuel generalizing retry results with
  | zero => omega
  | succ f ih =>
      match f, hfuel with
      | 0, hfuel =>
          have hr : retry = maxRetries := by omega
          simp [sendBatchGo, shouldRetry, hr]
      | f + 1, hfuel =>
          have hlt : retry < maxRetries := by omega
          rw [sendBatchGo]
          rw [ih results (retry + 1) (by omega) (by omega)]
          simp [shouldRetry, hlt]

/-- C7: with a provider transport that returns transport errors on every
request, a batch send performs exactly `max_retries + 1` network attempts and
then marks every message of the batch as failed. -/
theorem retry_bound_transport_errors (maxRetries : Nat) (tokens : List String) :
    (sendBatch (fun _ => none) maxRetries tokens).2 = maxRetries + 1 ∧
    ((sendBatch (fun _ => none) maxRetries tokens).1.all
      (fun r => !r.success && r.error == some "transport" && r.retry == maxRetries)) = true := by
  unfold sendBatch
  rw [sendBatchGo_all_transport_errors maxRetries _ 0 (maxRetries + 1) (by omega) (by omega)]
  refine ⟨rfl, ?_⟩
  simp [List.all_eq_true]

/-! ## C6 — dispatcher batching -/

/-- C6 counterexample: a Dispatcher call resolving 2 Expo attempts issues 2
network requests, not `⌈2/100⌉ = 1` — `SendToUsers` sends one single-message
request per attempt and never groups attempts into ≤100-message batches. -/
theorem dispatcher_batching_counterexample :
    dispatcherExpoRequestCount expoEnv twoUserStore ["u1", "u2"] = 2 ∧
    (2 + MaxMessagesPerRequest - 1) / MaxMessagesPerRequest = 1 ∧
    dispatcherExpoRequestCount expoEnv twoUserStore ["u1", "u2"] ≠
      (2 + MaxMessagesPerRequest - 1) / MaxMessagesPerRequest := by
  refine ⟨?_, ?_, ?_⟩ <;> decide

/-- C6 (amended): the Dispatcher issues one single-message request per
resolved Expo attempt (N attempts ⇒ N requests); partitioning into batches
of at most `MaxMessagesPerRequest = 100` messages, one request per batch and
`⌈N/100⌉` batches overall, happens only on the Expo service's
`SendBulkNotifications` path, whose batches concatenate back to the full
token list with nothing lost or duplicated. -/
theorem dispatcher_single_message_requests (env : PushEnv) (s : Store)
    (metaIds : List String) (tokens : List String) :
    dispatcherExpoRequestCount env s metaIds =
      ((sendToUsersResults env s metaIds).filter (fun r => r.platform == "expo")).length ∧
    ((sendBulkBatches tokens).all
      (fun b => decide (b.length ≤ MaxMessagesPerRequest))) = true ∧
    (sendBulkBatches tokens).flatten = tokens ∧
    (sendBulkBatches tokens).length =
      (tokens.length + MaxMessagesPerRequest - 1) / MaxMessagesPerRequest := by
  refine ⟨rfl, ?_, ?_, ?_⟩
  · simp only [sendBulkBatches, List.all_eq_true, List.mem_map]
    rintro b ⟨i, -, rfl⟩
    simp
  · rw [sendBulkBatches, ← List.flatMap_def, flatMap_range_slices]
    exact List.take_of_length_le
      (le_ceil_mul tokens.length MaxMessagesPerRequest (by decide))
  · simp [sendBulkBatches]

/-! ## C8 — exponential backoff schedule -/

/-- C8 counterexample: with `base_delay = 1`, the delay preceding the first
retry is 0 — not `base_delay · 2^0 · (1 + jitter) ≥ base_delay` as the claim
requires for any jitter ≥ 0 (`waitBeforeRetry(0)` returns without sleeping).
Consequently, in the fail-twice-then-succeed scenario the single-message send
does make exactly 3 network attempts and succeed, but its total wait is
`11/10 · base_delay`, below the claimed `3 · base_delay` for any jitter ≥ 0. -/
theorem backoff_counterexample :
    delayBeforeRetry 1 1 = 0 ∧ ¬ ((1 : ℚ) ≤ delayBeforeRetry 1 1) ∧
    (sendSingle failTwiceTransport 3 1 "t").1.success = true ∧
    (sendSingle failTwiceTransport 3 1 "t").2.1 = 3 ∧
    (sendSingle failTwiceTransport 3 1 "t").2.2 = 11 / 10 ∧
    ¬ ((3 : ℚ) ≤ (sendSingle failTwiceTransport 3 1 "t").2.2) := by
  have hval : (sendSingle failTwiceTransport 3 1 "t").2.2 = 11 / 10 := by
    show (0 : ℚ) + (waitDelay 1 1 + 0) = 11 / 10
    rw [waitDelay]
    norm_num
  refine ⟨rfl, by norm_num [delayBeforeRetry, waitDelay], rfl, rfl, hval, ?_⟩
  rw [hval]
  norm_num

/-- C8 (amended): the first retry is immediate (zero delay); the n-th retry
for n ≥ 2 is preceded by a delay of `base_delay · 2^(n-2) · (1 + 1/10)` (the
jitter is deterministically one tenth of the delay, not sampled from
[0, 0.1]); with a provider that fails twice then succeeds, a single-message
send makes exactly 3 network attempts, succeeds, and waits a total of
`11/10 · base_delay`. -/
theorem backoff_schedule (base : ℚ) (n : Nat) (hn : 2 ≤ n) :
    delayBeforeRetry base 1 = 0 ∧
    delayBeforeRetry base n = base * 2 ^ (n - 2) * (1 + 1 / 10) ∧
    (sendSingle failTwiceTransport 3 base "t").1.success = true ∧
    (sendSingle failTwiceTransport 3 base "t").2.1 = 3 ∧
    (sendSingle failTwiceTransport 3 base "t").2.2 = 11 / 10 * base := by
  refine ⟨rfl, ?_, ?_, ?_, ?_⟩
  · have h1 : n - 1 ≠ 0 := by omega
    have h2 : n - 1 - 1 = n - 2 := by omega
    rw [delayBeforeRetry, waitDelay, if_neg h1, h2]
    norm_num
  · rfl
  · rfl
  · show (0 : ℚ) + (waitDelay base 1 + 0) = 11 / 10 * base
    rw [waitDelay]
    norm_num
    ring

/-- Witness for `backoff_schedule` at `base_delay = 1`, `n = 2`. -/
theorem backoff_schedule_witness :
    2 ≤ 2 ∧
    (delayBeforeRetry 1 1 = 0 ∧
      delayBeforeRetry 1 2 = 1 * 2 ^ (2 - 2) * (1 + 1 / 10) ∧
      (sendSingle failTwiceTransport 3 1 "t").1.success = true ∧
      (sendSingle failTwiceTransport 3 1 "t").2.1 = 3 ∧
      (sendSingle failTwiceTransport 3 1 "t").2.2 = 11 / 10 * 1) :=
  ⟨by decide, backoff_schedule 1 2 (by decide)⟩

/-! ## C9 — pagination -/

/-- Clamping: a requested page size above 100 behaves exactly like 100. -/
theorem getUserTokensList_pageSize_clamp {α : Type} (l : List α) (p s : Nat)
    (hs : 1 ≤ s) : getUserTokensList l p s = getUserTokensList l p (min s 100) := by
  have he : (if s < 1 then 10 else if s > 100 then 100 else s) =
      (if min s 100 < 1 then 10 else if min s 100 > 100 then 100 else min s 100) := by
    rcases le_or_lt s 100 with h | h
    · have h1 : min s 100 = s := by omega
      rw [h1]
    · have h1 : min s 100 = 100 := by omega
      have h2 : ¬ s < 1 := by omega
      rw [h1, if_neg h2, if_pos h]
      decide
  unfold getUserTokensList
  rw [he]

/-- The page slice produced for an in-range page size: page `p ≥ 1` holds
the elements `[(p-1)·s, p·s)` of the full scan. -/
theorem getUserTokensList_users_eq {α : Type} (l : List α) (page s : Nat)
    (hp : 1 ≤ page) (hs : 1 ≤ s) (hs100 : s ≤ 100) :
    (getUserTokensList l page s).users = (l.drop ((page - 1) * s)).take s := by
  unfold getUserTokensList
  have h1 : ¬ page < 1 := by omega
  have h2 : ¬ s < 1 := by omega
  have h3 : ¬ s > 100 := by omega
  simp only [if_neg h1, if_neg h2, if_neg h3]
  by_cases h : (page - 1) * s ≥ l.length
  · rw [if_pos h, List.drop_eq_nil_of_le h]
    simp
  · rw [if_neg h]
    by_cases h4 : (page - 1) * s + s > l.length
    · rw [if_pos h4]
      have hlen : (l.drop ((page - 1) * s)).length = l.length - (page - 1) * s := by
        simp
      rw [show l.length - (page - 1) * s = (l.drop ((page - 1) * s)).length from hlen.symm,
        List.take_length]
      exact (List.take_of_length_le (by rw [hlen]; omega)).symm
    · rw [if_neg h4, Nat.add_sub_cancel_left]

/-- `totalPages` is the ceiling `⌈total / s⌉`, independent of the page. -/
theorem getUserTokensList_totalPages {α : Type} (l : List α) (page s : Nat)
    (hs : 1 ≤ s) (hs100 : s ≤ 100) :
    (getUserTokensList l page s).totalPages = (l.length + s - 1) / s := by
  unfold getUserTokensList
  have h2 : ¬ s < 1 := by omega
  have h3 : ¬ s > 100 := by omega
  simp only [if_neg h2, if_neg h3]
  by_cases h : ((if page < 1 then 1 else page) - 1) * s ≥ l.length
  · rw [if_pos h]
  · rw [if_neg h]

/-- A page starting at or beyond the end of the keyspace is empty and
reports `has_next = false`. -/
theorem getUserTokensList_out_of_range {α : Type} (l : List α) (page s : Nat)
    (hp : 1 ≤ page) (hs : 1 ≤ s) (hs100 : s ≤ 100)
    (h : l.length ≤ (page - 1) * s) :
    (getUserTokensList l page s).users = [] ∧
    (getUserTokensList l page s).hasNext = false := by
  unfold getUserTokensList
  have h1 : ¬ page < 1 := by omega
  have h2 : ¬ s < 1 := by omega
  have h3 : ¬ s > 100 := by omega
  simp only [if_neg h1, if_neg h2, if_neg h3, if_pos h]
  simp

/-- C9: for any page size `s ≥ 1` (sizes above 100 are clamped to 100), the
concatenation of pages `1, 2, …, total_pages` of `getUserTokensList` over an
unchanged full scan equals the full scan itself — no item is missed or
repeated — and every page beyond `total_pages` is empty with
`has_next = false`. -/
theorem pagination_law {α : Type} (allUsers : List α) (s : Nat) (hs : 1 ≤ s) :
    ((List.range (getUserTokensList allUsers 1 s).totalPages).flatMap
        (fun i => (getUserTokensList allUsers (i + 1) s).users) = allUsers) ∧
    (∀ page, (getUserTokensList allUsers 1 s).totalPages < page →
        (getUserTokensList allUsers page s).users = [] ∧
        (getUserTokensList allUsers page s).hasNext = false) := by
  have hc : ∀ p, getUserTokensList allUsers p s = getUserTokensList allUsers p (min s 100) :=
    fun p => getUserTokensList_pageSize_clamp allUsers p s hs
  have ht1 : 1 ≤ min s 100 := by omega
  have ht100 : min s 100 ≤ 100 := by omega
  have htp : (getUserTokensList allUsers 1 s).totalPages =
      (allUsers.length + min s 100 - 1) / min s 100 := by
    rw [hc 1]
    exact getUserTokensList_totalPages allUsers 1 (min s 100) ht1 ht100
  have hceil := le_ceil_mul allUsers.length (min s 100) ht1
  constructor
  · have husers : ∀ i, (getUserTokensList allUsers (i + 1) s).users =
        (allUsers.drop (i * min s 100)).take (min s 100) := by
      intro i
      rw [hc (i + 1), getUserTokensList_users_eq allUsers (i + 1) (min s 100)
        (by omega) ht1 ht100, Nat.add_sub_cancel]
    simp only [husers, htp]
    rw [flatMap_range_slices]
    exact List.take_of_length_le hceil
  · intro page hpage
    rw [htp] at hpage
    rw [hc page]
    refine getUserTokensList_out_of_range allUsers page (min s 100)
      (by omega) ht1 ht100 ?_
    calc allUsers.length ≤ (allUsers.length + min s 100 - 1) / min s 100 * min s 100 := hceil
      _ ≤ (page - 1) * min s 100 := Nat.mul_le_mul_right _ (by omega)

/-- Witness for `pagination_law`: three items paged two at a time. -/
theorem pagination_law_witness :
    1 ≤ 2 ∧
    ((List.range (getUserTokensList [10, 20, 30] 1 2).totalPages).flatMap
        (fun i => (getUserTokensList [10, 20, 30] (i + 1) 2).users) = [10, 20, 30]) ∧
    ((getUserTokensList [10, 20, 30] 3 2).users = [] ∧
      (getUserTokensList [10, 20, 30] 3 2).hasNext = false) := by
  refine ⟨by decide, (pagination_law [10, 20, 30] 2 (by decide)).1,
    (pagination_law [10, 20, 30] 2 (by decide)).2 3 ?_⟩
  decide

/-! ## Relay characterization -/

/-- Every dispatcher call emitted by `processChatMessage` is either the
mention-shaped call with the envelope's `mention_meta_ids` as-is, or the
plain-shaped call with the mute-filtered recipients minus the mentioned
ones. -/
theorem processChatMessage_calls (s : Store) (msg : ChatNotificationMessage)
    (p : ParsedMessageInfo) (call : DispatchCall)
    (hParse : parseMessageInfo msg = Except.ok p)
    (hCall : call ∈ (processChatMessage s msg).1) :
    (call.isMention = true ∧ call.recipients = mentionIdsOf msg ∧
      call.body = GenerateNotificationBody msg.type p.userName p.chatInfoType true p.groupId) ∨
    (call.isMention = false ∧
      call.recipients =
        (filterBlockedUsers s ((msg.data.map (fun d => d.repostMetaIds)).getD []) p).filter
          (fun mid => !((mentionIdsOf msg).contains mid)) ∧
      call.body = GenerateNotificationBody msg.type p.userName p.chatInfoType false "") := by
  unfold processChatMessage at hCall
  rw [hParse] at hCall
  dsimp only at hCall
  split at hCall
  · simp at hCall
  · split at hCall
    · simp at hCall
    · rcases List.mem_append.1 hCall with h | h
      · split at h
        · rw [List.mem_singleton] at h
          subst h
          left
          exact ⟨rfl, rfl, rfl⟩
        · simp at h
      · split at h
        · rw [List.mem_singleton] at h
          subst h
          right
          exact ⟨rfl, rfl, rfl⟩
        · simp at h

/-- A recipient who has muted the envelope's derived chat is dropped by
`filterBlockedUsers`. -/
theorem includeRecipient_eq_false (s : Store) (p : ParsedMessageInfo) (u c : String)
    (hBlocked : s.isUserBlockedChat u c = true) (hChat : chatIdOf p = c) :
    includeRecipient s p u = false := by
  have hc : c ≠ "" := by
    intro h
    rw [h] at hBlocked
    simp [Store.isUserBlockedChat] at hBlocked
  unfold includeRecipient
  rw [hChat]
  by_cases h1 : (p.chatType == "private_chat" && u == c) = true
  · rw [if_pos h1]
  · rw [if_neg h1, if_neg (by simp [hc])]
    simp [hBlocked]

/-- In a private chat, the peer (`private_meta_id`) itself is always dropped
by `filterBlockedUsers`. -/
theorem includeRecipient_self_false (s : Store) (p : ParsedMessageInfo)
    (h : p.chatType = "private_chat") : includeRecipient s p p.metaId = false := by
  simp [includeRecipient, chatIdOf, h]

/-! ## C1 — PIN-level dedup idempotence -/

/-- C1: once a PIN is recorded, every envelope carrying the same non-empty
`pin_id` is dropped at the dedup step: `processChatMessage` emits no
dispatcher call and leaves the store untouched. Moreover no processing step
ever un-records a PIN, so the drop holds for every subsequently processed
envelope across the process lifetime. -/
theorem pin_dedup_idempotence :
    (∀ (s : Store) (msg : ChatNotificationMessage) (pin : String),
      pin ≠ "" → parsedPinOf msg = some pin → s.isNotifiedPin pin = true →
      (processChatMessage s msg).1 = [] ∧ (processChatMessage s msg).2 = s) ∧
    (∀ (s : Store) (msg : ChatNotificationMessage) (pin : String),
      s.isNotifiedPin pin = true →
      (processChatMessage s msg).2.isNotifiedPin pin = true) := by
  constructor
  · intro s msg pin hpin hparse hnot
    obtain ⟨p, hp, hpid⟩ : ∃ p, parseMessageInfo msg = Except.ok p ∧ p.pinId = pin := by
      unfold parsedPinOf at hparse
      cases hmp : parseMessageInfo msg with
      | error e => rw [hmp] at hparse; simp [Except.toOption] at hparse
      | ok q =>
          rw [hmp] at hparse
          simp [Except.toOption] at hparse
          exact ⟨q, rfl, hparse⟩
    have hcond : p.pinId ≠ "" ∧ s.isNotifiedPin p.pinId = true :=
      ⟨by rw [hpid]; exact hpin, by rw [hpid]; exact hnot⟩
    unfold processChatMessage
    rw [hp]
    dsimp only
    rw [if_pos hcond]
    exact ⟨rfl, rfl⟩
  · intro s msg pin hnot
    unfold processChatMessage
    cases hmp : parseMessageInfo msg with
    | error e => exact hnot
    | ok p =>
        dsimp only
        split
        · exact hnot
        · split
          · exact hnot
          · dsimp only
            split
            · exact isNotifiedPin_addNotifiedPin s pin _ hnot
            · exact hnot

/-- Witness for `pin_dedup_idempotence`: replaying the S3 envelope (PIN
`P1`) against a store that has already recorded `P1`. -/
theorem pin_dedup_idempotence_witness :
    ("P1" ≠ "" ∧ parsedPinOf privatePlainMsg = some "P1" ∧
      pinStore.isNotifiedPin "P1" = true) ∧
    ((processChatMessage pinStore privatePlainMsg).1 = [] ∧
      (processChatMessage pinStore privatePlainMsg).2 = pinStore) ∧
    (processChatMessage pinStore privatePlainMsg).2.isNotifiedPin "P1" = true :=
  ⟨⟨by decide, by decide, by decide⟩,
    pin_dedup_idempotence.1 pinStore privatePlainMsg "P1" (by decide) (by decide) (by decide),
    pin_dedup_idempotence.2 pinStore privatePlainMsg "P1" (by decide)⟩

/-! ## C2 — mute correctness -/

/-- C2: if `is_user_blocked_chat(u, c)` holds and an envelope's derived chat
id is `c`, then every `PushResult` for `u` produced by dispatching any of the
envelope's calls can only arise because `u` is listed in the envelope's
`mention_meta_ids` (mention recipients bypass the mute filter). -/
theorem mute_correctness (env : PushEnv) (s : Store) (msg : ChatNotificationMessage)
    (p : ParsedMessageInfo) (u c : String) (call : DispatchCall) (r : PushResult)
    (hParse : parseMessageInfo msg = Except.ok p)
    (hBlocked : s.isUserBlockedChat u c = true)
    (hChat : chatIdOf p = c)
    (hCall : call ∈ (processChatMessage s msg).1)
    (hr : r ∈ sendToUsersResults env s call.recipients)
    (hu : r.metaId = u) :
    u ∈ mentionIdsOf msg := by
  have hmem : u ∈ call.recipients :=
    hu ▸ mem_sendToUsersResults env s call.recipients r hr
  rcases processChatMessage_calls s msg p call hParse hCall with h | h
  · rw [h.2.1] at hmem
    exact hmem
  · rw [h.2.1] at hmem
    have hfil := List.mem_filter.1 hmem
    have hinc := (List.mem_filter.1 hfil.1).2
    rw [includeRecipient_eq_false s p u c hBlocked hChat] at hinc
    cases hinc

/-- Witness for `mute_correctness`: scenario S4 — `u3` muted `g1` yet is
mentioned, so the attempt produced for `u3` comes from the mention call. -/
theorem mute_correctness_witness :
    (muteStore.isUserBlockedChat "u3" "g1" = true ∧
      mentionCallU3 ∈ (processChatMessage muteStore groupMentionMsg).1) ∧
    "u3" ∈ mentionIdsOf groupMentionMsg :=
  ⟨⟨by decide, by decide⟩,
    mute_correctness expoEnv muteStore groupMentionMsg groupMentionParsed
      "u3" "g1" mentionCallU3
      { metaId := "u3", platform := "expo",
        token := "ExponentPushToken[aaaaaaaaaaaaaaaaaaaaaa]" }
      rfl (by decide) rfl (by decide) (by decide) rfl⟩

/-! ## C3 — self-suppression -/

/-- C3 counterexample: a `private_chat` envelope that mentions its own
`private_meta_id` `u1` produces a dispatcher call whose recipient set
contains `u1` — the mention call passes `mention_meta_ids` through without
self-suppression, so the claim fails for the mention-recipient call. -/
theorem self_suppression_counterexample :
    (parseMessageInfo selfMentionMsg).toOption.map (fun p => p.metaId) = some "u1" ∧
    ((processChatMessage Store.empty selfMentionMsg).1.any
      (fun call => call.recipients.contains "u1")) = true := by
  refine ⟨?_, ?_⟩ <;> decide

/-- C3 (amended): for a `private_chat` envelope, a recipient equal to
`private_meta_id` never appears in the recipient set of the plain-recipient
dispatcher call; the mention-recipient call carries `mention_meta_ids`
unchanged and is not self-suppressed. -/
theorem self_suppression_plain_calls (s : Store) (msg : ChatNotificationMessage)
    (p : ParsedMessageInfo) (call : DispatchCall)
    (hParse : parseMessageInfo msg = Except.ok p)
    (hType : p.chatType = "private_chat")
    (hCall : call ∈ (processChatMessage s msg).1)
    (hPlain : call.isMention = false) :
    p.metaId ∉ call.recipients := by
  intro hmem
  rcases processChatMessage_calls s msg p call hParse hCall with h | h
  · rw [h.1] at hPlain
    cases hPlain
  · rw [h.2.1] at hmem
    have hfil := List.mem_filter.1 hmem
    have hinc := (List.mem_filter.1 hfil.1).2
    rw [includeRecipient_self_false s p hType] at hinc
    cases hinc

/-- Witness for `self_suppression_plain_calls`: the S3 envelope's plain call
targets `u2` only, never the peer `u1`. -/
theorem self_suppression_plain_calls_witness :
    (plainCallU2 ∈ (processChatMessage Store.empty privatePlainMsg).1) ∧
    privatePlainParsed.metaId ∉ plainCallU2.recipients :=
  ⟨by decide,
    self_suppression_plain_calls Store.empty privatePlainMsg privatePlainParsed
      plainCallU2 rfl rfl (by decide) rfl⟩

/-! ## C10 — private-chat Candy Bag unreachability -/

/-- For a `private_chat` envelope the parser never decodes `chatType`, so
`chat_info_type` is always 0. -/
theorem parse_private_chatInfoType (msg : ChatNotificationMessage)
    (p : ParsedMessageInfo) (hType : msg.type = "private_chat")
    (hParse : parseMessageInfo msg = Except.ok p) :
    p.chatInfoType = 0 := by
  unfold parseMessageInfo at hParse
  cases hd : msg.data with
  | none => rw [hd] at hParse; exact absurd hParse (by simp)
  | some d =>
      rw [hd] at hParse
      dsimp only at hParse
      cases hm : d.message with
      | nilVal => rw [hm] at hParse; exact absurd hParse (by simp)
      | nonMap =>
          rw [hm] at hParse
          dsimp only at hParse
          injection hParse with h
          rw [← h]
      | mapVal m =>
          rw [hm] at hParse
          dsimp only at hParse
          rw [if_pos hType] at hParse
          injection hParse with h
          rw [← h]

/-- C10: for every `private_chat` envelope, the parsed `chat_info_type` is 0
regardless of the `chatType` carried in the raw message, and the composed
body of the non-mention (plain) dispatcher call is always the plain-message
variant, never the Candy Bag variant. -/
theorem private_chat_no_candy_bag (s : Store) (msg : ChatNotificationMessage)
    (p : ParsedMessageInfo) (call : DispatchCall)
    (hType : msg.type = "private_chat")
    (hParse : parseMessageInfo msg = Except.ok p)
    (hCall : call ∈ (processChatMessage s msg).1)
    (hPlain : call.isMention = false) :
    p.chatInfoType = 0 ∧
    call.body = (if p.userName = "" then "You have a new message"
                 else truncateUserName p.userName ++ " sent you a message") := by
  have h0 := parse_private_chatInfoType msg p hType hParse
  refine ⟨h0, ?_⟩
  rcases processChatMessage_calls s msg p call hParse hCall with h | h
  · rw [h.1] at hPlain
    cases hPlain
  · rw [h.2.2, hType, h0]
    by_cases hu : p.userName = "" <;> simp [GenerateNotificationBody, hu]

/-- Witness for `private_chat_no_candy_bag`: a private envelope carrying
`chatType = 1` (Candy Bag) still composes the plain-message body. -/
theorem private_chat_no_candy_bag_witness :
    (plainCallU2 ∈ (processChatMessage Store.empty privateCandyMsg).1) ∧
    (privateCandyParsed.chatInfoType = 0 ∧
      plainCallU2.body =
        (if privateCandyParsed.userName = "" then "You have a new message"
         else truncateUserName privateCandyParsed.userName ++ " sent you a message")) :=
  ⟨by decide,
    private_chat_no_candy_bag Store.empty privateCandyMsg privateCandyParsed
      plainCallU2 rfl rfl (by decide) rfl⟩

/-! ## C4 — token transfer uniqueness -/

/-- After `set_user_token(A, P, T)` the device binding for `T` points at
`(A, P)` and `A`'s token map holds `T` under `P`. The hypothesis `hWFT` is
the `devices` keyspace invariant — every stored `DeviceInfo` is keyed by its
own `DeviceID` — which `SaveDeviceInfo` maintains by construction. -/
theorem setUserToken_first (s : Store) (A P T : String)
    (hA : A ≠ "") (hP : P ≠ "") (hT : T ≠ "")
    (hWFT : ∀ d, s.devices T = some d → d.deviceId = T) :
    (s.setUserToken A P T).getDeviceInfo T =
      some { deviceId := T, platform := P, metaId := A } ∧
    tmGet ((s.setUserToken A P T).getUserTokens A) P = some T := by
  unfold Store.setUserToken
  rw [if_neg (by simp [hA, hP, hT])]
  dsimp only
  constructor
  · cases hdev : s.getDeviceInfo T with
    | none =>
        simp [Store.getDeviceInfo, Store.getUserTokens, Store.saveUserTokens,
          Store.saveDeviceInfo]
    | some d =>
        have hdid : d.deviceId = T := hWFT d hdev
        simp [Store.getDeviceInfo, Store.getUserTokens, Store.saveUserTokens,
          Store.saveDeviceInfo, hdid]
  · cases hdev : s.getDeviceInfo T with
    | none =>
        simp [Store.getUserTokens, Store.saveUserTokens, tmGet_tmSet_self]
    | some d =>
        simp [Store.getUserTokens, Store.saveUserTokens, tmGet_tmSet_self]

/-- The second `set_user_token` call, given the state facts the first call
established: the prior owner `A` is scrubbed, `B` gains the token, and the
binding is rewritten to `B`. -/
theorem setUserToken_second (s1 : Store) (A B P T : String)
    (hB : B ≠ "") (hP : P ≠ "") (hT : T ≠ "") (hAB : A ≠ B)
    (hdev1 : s1.getDeviceInfo T = some { deviceId := T, platform := P, metaId := A })
    (htok1 : tmGet (s1.getUserTokens A) P = some T) :
    tmGet ((s1.setUserToken B P T).userTokens A) P = none ∧
    tmGet ((s1.setUserToken B P T).userTokens B) P = some T ∧
    ((s1.setUserToken B P T).devices T).map (fun d => d.metaId) = some B := by
  unfold Store.setUserToken
  rw [if_neg (by simp [hB, hP, hT])]
  dsimp only
  rw [hdev1]
  dsimp only
  rw [if_pos hAB, htok1]
  dsimp only
  rw [if_pos rfl]
  refine ⟨?_, ?_, ?_⟩
  · simp [Store.getUserTokens, Store.saveUserTokens, Store.saveDeviceInfo,
      hAB, tmGet_tmDel_self]
  · simp [Store.getUserTokens, Store.saveUserTokens, Store.saveDeviceInfo,
      tmGet_tmSet_self]
  · simp [Store.saveUserTokens, Store.saveDeviceInfo]

/-- C4: `set_user_token(A, P, T)` followed by `set_user_token(B, P, T)` with
`A ≠ B` (all arguments non-empty, over any store whose `devices` keyspace is
keyed consistently) leaves `A` without a `P` entry, gives `B` the token `T`
under `P`, and points the device binding for `T` at `B` — a push token is
bound to exactly one `meta_id` at a time. -/
theorem set_user_token_transfer (s : Store) (A B P T : String)
    (hWFT : ∀ d, s.devices T = some d → d.deviceId = T)
    (hA : A ≠ "") (hB : B ≠ "") (hP : P ≠ "") (hT : T ≠ "") (hAB : A ≠ B) :
    tmGet (((s.setUserToken A P T).setUserToken B P T).userTokens A) P = none ∧
    tmGet (((s.setUserToken A P T).setUserToken B P T).userTokens B) P = some T ∧
    (((s.setUserToken A P T).setUserToken B P T).devices T).map (fun d => d.metaId) =
      some B := by
  obtain ⟨hdev1, htok1⟩ := setUserToken_first s A P T hA hP hT hWFT
  exact setUserToken_second (s.setUserToken A P T) A B P T hB hP hT hAB hdev1 htok1

/-- Witness for `set_user_token_transfer`: S1 + S2 — registering the same
Expo token for `u1` then `u2` over the empty store. -/
theorem set_user_token_transfer_witness :
    tmGet
        ((((Store.empty.setUserToken "u1" "expo" "ExponentPushToken[AAA]").setUserToken
            "u2" "expo" "ExponentPushToken[AAA]")).userTokens "u1") "expo" = none ∧
    tmGet
        ((((Store.empty.setUserToken "u1" "expo" "ExponentPushToken[AAA]").setUserToken
            "u2" "expo" "ExponentPushToken[AAA]")).userTokens "u2") "expo" =
      some "ExponentPushToken[AAA]" ∧
    ((((Store.empty.setUserToken "u1" "expo" "ExponentPushToken[AAA]").setUserToken
        "u2" "expo" "ExponentPushToken[AAA]")).devices "ExponentPushToken[AAA]").map
      (fun d => d.metaId) = some "u2" :=
  set_user_token_transfer Store.empty "u1" "u2" "expo" "ExponentPushToken[AAA]"
    (fun d h => Option.noConfusion h) (by decide) (by decide) (by decide) (by decide)
    (by decide)

end PushBase
